import Mathlib

/-!
Shallow embedding of the two non-trivial scripts of the BuukGroup/buuk-workflows
repository:

* `scripts/coverage-calculator.js` — coverage aggregation (global and
  changed-files-only), changed-file resolution, markdown report, and the
  `COVERAGE_CHECK_FAILED` gate computed in `main`.
* `scripts/pr-commenter.js` — the pull-request comment synchroniser
  (`findExistingComment` / `postOrUpdateComment`) against the GitHub REST API.

JavaScript strings are modelled as `List Char`.  The external collaborators
(the file system, `path.resolve`, the git subprocess, the GitHub API transport)
are passed in as explicit function parameters or oracle values; console output
that the scripts emit per file is modelled structurally (`LogLine`), and the
emoji prefixes of console messages are dropped.
-/

namespace BuukWorkflows

/-- JavaScript strings, modelled as their character lists. -/
abbrev JStr := List Char

/-- `pat` is a prefix of `s` (character-by-character comparison). -/
def lcStartsWith : JStr → JStr → Bool
  | [], _ => true
  | _ :: _, [] => false
  | a :: as, b :: bs => a = b && lcStartsWith as bs

/-- JavaScript `s.endsWith(pat)`. -/
def lcEndsWith (s pat : JStr) : Bool :=
  lcStartsWith pat.reverse s.reverse

/-- JavaScript `s.includes(pat)`: `pat` occurs as a contiguous substring of `s`. -/
def lcContains (s pat : JStr) : Bool :=
  match s with
  | [] => lcStartsWith pat []
  | c :: t => lcStartsWith pat (c :: t) || lcContains t pat

/-- Whitespace characters removed by JavaScript `String.prototype.trim`. -/
def isWsp (c : Char) : Bool :=
  c = ' ' || c = '\n' || c = '\t' || c = '\r'

/-- JavaScript `s.trim()`. -/
def lcTrim (s : JStr) : JStr :=
  ((s.dropWhile isWsp).reverse.dropWhile isWsp).reverse

/-- JavaScript `s.split('\n')`. -/
def splitLines : JStr → List JStr
  | [] => [[]]
  | c :: t =>
    let r := splitLines t
    if c = '\n' then [] :: r
    else
      match r with
      | [] => [[c]]
      | h :: rt => (c :: h) :: rt

/-- One entry of the parsed `coverage-final.json`: the absolute `path` recorded
by the coverage tool and `s`, the statement hit counts
(`Object.values(fileData.s)`; the coverage schema always carries `s`, so the
JavaScript truthiness guard `fileData && fileData.s` always holds for a found
entry). -/
structure FileCoverage where
  path : JStr
  s : List Nat
deriving DecidableEq

/-- `statements.filter(count => count > 0).length`. -/
def coveredCount (counts : List Nat) : Nat :=
  (counts.filter (fun c => decide (0 < c))).length

/-- Total statement count accumulated by `calculateGlobalCoverage`. -/
def totalStatements (cov : List FileCoverage) : Nat :=
  (cov.map (fun f => f.s.length)).sum

/-- Covered statement count accumulated by `calculateGlobalCoverage`. -/
def coveredStatements (cov : List FileCoverage) : Nat :=
  (cov.map (fun f => coveredCount f.s)).sum

/-- The percentage strings produced by the script: `na` is the string `'N/A'`,
and `val b` is the two-decimal numeral printed by `toFixed(2)`, whose numeric
value is `b / 100` (so `val 0` is the string `'0.00'`). -/
inductive Pct where
  | na : Pct
  | val : Nat → Pct
deriving DecidableEq

/-- `((c / t) * 100).toFixed(2)`, expressed in hundredths of a percent:
round-half-up of the exact rational `c * 10000 / t` (ECMAScript `toFixed`
picks the larger candidate on ties; IEEE-754 representation error on exact
ties is below the granularity of these counts). -/
def roundHundredths (c t : Nat) : Nat :=
  (c * 20000 + t) / (2 * t)

/-- `calculateGlobalCoverage` of `scripts/coverage-calculator.js`: sums
statement counts over every entry and returns `toFixed(2)` of the ratio, or
the string `'0.00'` when no statements were instrumented. -/
def calculateGlobalCoverage (cov : List FileCoverage) : Pct :=
  if 0 < totalStatements cov then
    Pct.val (roundHundredths (coveredStatements cov) (totalStatements cov))
  else Pct.val 0

/-- `getChangedFiles`: the git pipeline
`git diff --name-only ... | grep -E pattern | grep prefix || true` is an
external subprocess; its outcome is the `diffOut` oracle (`ok` = raw stdout,
`error` = thrown message).  Returns the changed-file list together with the
`console.error` warnings emitted.  On failure the catch block logs
`Failed to get changed files: ...` and returns `[]`; on success the stdout is
trimmed and, if nonempty, split on newlines with empty lines dropped
(`.split('\n').filter(Boolean)`). -/
def getChangedFiles (diffOut : Except JStr JStr) : List JStr × List JStr :=
  match diffOut with
  | .error msg => ([], ["Failed to get changed files: ".data ++ msg])
  | .ok out =>
    let t := lcTrim out
    (if t = [] then [] else (splitLines t).filter (fun l => !l.isEmpty), [])

/-- A per-file entry pushed onto `fileDetails`. -/
structure FileDetail where
  file : JStr
  covered : Nat
  total : Nat
  percentage : Nat
deriving DecidableEq

/-- The per-file console output of the changed-files loop: either the
`file: covered/total (pct%)` line or the `file: No coverage data found` line. -/
inductive LogLine where
  | detail (file : JStr) (covered total pct : Nat)
  | noData (file : JStr)
deriving DecidableEq

/-- `Object.values(coverage).find(data => data.path === absolutePath ||
data.path.endsWith(file))`, with `absolutePath = path.resolve(file)` supplied
by the `resolve` parameter. -/
def findCoverage (cov : List FileCoverage) (resolve : JStr → JStr) (file : JStr) :
    Option FileCoverage :=
  cov.find? (fun d => decide (d.path = resolve file) || lcEndsWith d.path file)

/-- The accumulator of the `changedFiles.forEach` loop. -/
structure LoopAcc where
  totalLines : Nat
  coveredLines : Nat
  fileDetails : List FileDetail
  logs : List LogLine
deriving DecidableEq

/-- Sequential composition of two loop-accumulator increments. -/
def addContrib (a b : LoopAcc) : LoopAcc :=
  ⟨a.totalLines + b.totalLines, a.coveredLines + b.coveredLines,
   a.fileDetails ++ b.fileDetails, a.logs ++ b.logs⟩

/-- The body of the `changedFiles.forEach` loop for one file, expressed as the
increment it adds to the accumulator (each iteration's additions are
independent of the accumulated state): skip the file when `fs.existsSync` is
false; otherwise look up its coverage entry; on a hit add the counts to the
totals and, when the file has at least one statement, push a detail entry and
log it; on a miss log `No coverage data found`. -/
def fileContribution (cov : List FileCoverage) (fsExists : JStr → Bool)
    (resolve : JStr → JStr) (file : JStr) : LoopAcc :=
  if fsExists file then
    match findCoverage cov resolve file with
    | some fd =>
      let fileCovered := coveredCount fd.s
      let fileTotal := fd.s.length
      if 0 < fileTotal then
        { totalLines := fileTotal, coveredLines := fileCovered,
          fileDetails := [⟨file, fileCovered, fileTotal, roundHundredths fileCovered fileTotal⟩],
          logs := [LogLine.detail file fileCovered fileTotal
            (roundHundredths fileCovered fileTotal)] }
      else
        { totalLines := fileTotal, coveredLines := fileCovered,
          fileDetails := [], logs := [] }
    | none =>
      { totalLines := 0, coveredLines := 0, fileDetails := [],
        logs := [LogLine.noData file] }
  else ⟨0, 0, [], []⟩

/-- The whole `changedFiles.forEach` loop: the in-order concatenation of the
per-file increments. -/
def processFiles (cov : List FileCoverage) (fsExists : JStr → Bool)
    (resolve : JStr → JStr) : List JStr → LoopAcc
  | [] => ⟨0, 0, [], []⟩
  | f :: rest =>
    addContrib (fileContribution cov fsExists resolve f)
      (processFiles cov fsExists resolve rest)

/-- The `message` field of the result object, modelled structurally: either
`No PATTERNS files changed in DIR` or
`Overall coverage for changed files: c/t (p%)`. -/
inductive ResultMessage where
  | noneChanged (filePatterns sourceDir : JStr)
  | overall (covered total : Nat) (pct : Pct)
deriving DecidableEq

/-- The object returned by `calculateChangedFilesCoverage`. -/
structure ChangedResult where
  percentage : Pct
  totalLines : Nat
  coveredLines : Nat
  files : List FileDetail
  logs : List LogLine
  message : ResultMessage
deriving DecidableEq

/-- `calculateChangedFilesCoverage` of `scripts/coverage-calculator.js`.
When `changedFiles.length === 0` it returns `'N/A'` immediately; otherwise it
runs the per-file loop and applies the same `toFixed(2)` formula, with
`'0.00'` when the matched total is zero. -/
def calculateChangedFilesCoverage (cov : List FileCoverage) (fsExists : JStr → Bool)
    (resolve : JStr → JStr) (filePatterns sourceDir : JStr)
    (changedFiles : List JStr) : ChangedResult :=
  if changedFiles = [] then
    { percentage := Pct.na, totalLines := 0, coveredLines := 0, files := [],
      logs := [], message := ResultMessage.noneChanged filePatterns sourceDir }
  else
    let acc := processFiles cov fsExists resolve changedFiles
    let overallPercentage :=
      if 0 < acc.totalLines then
        Pct.val (roundHundredths acc.coveredLines acc.totalLines)
      else Pct.val 0
    { percentage := overallPercentage, totalLines := acc.totalLines,
      coveredLines := acc.coveredLines, files := acc.fileDetails,
      logs := acc.logs,
      message := ResultMessage.overall acc.coveredLines acc.totalLines overallPercentage }

/-- `parseFloat` applied to a percentage string: `'N/A'` parses to `NaN`
(modelled as `none`); a two-decimal numeral parses to its exact value. -/
def parseFloatPct : Pct → Option ℚ
  | Pct.na => none
  | Pct.val b => some ((b : ℚ) / 100)

/-- A JavaScript `x >= t` comparison where `x` may be `NaN`: every comparison
against `NaN` is false. -/
def floatGE (x : Option ℚ) (t : ℚ) : Bool :=
  match x with
  | none => false
  | some v => decide (t ≤ v)

/-- Line 158 of `generateMarkdownReport`:
`parseFloat(changedFilesCoverage.percentage) >= threshold`. -/
def reportThresholdMet (p : Pct) (threshold : ℚ) : Bool :=
  floatGE (parseFloatPct p) threshold

/-- Line 210 of `main`:
`result.percentage !== 'N/A' && parseFloat(result.percentage) >= 20`. -/
def mainThresholdMet (p : Pct) : Bool :=
  (decide (p ≠ Pct.na)) && floatGE (parseFloatPct p) 20

/-- Line 211 of `main`: the value printed as `COVERAGE_CHECK_FAILED=...`. -/
def coverageCheckFailed (p : Pct) : Bool :=
  !(mainThresholdMet p)

/-! ## `scripts/pr-commenter.js`: the comment synchroniser

The GitHub REST API is the external collaborator.  It is modelled as an
`ApiWorld`: the pull request's stored comment list together with injected
failure outcomes for the three requests the script issues (`GET` list
comments, `POST` create, `PATCH` update).  Per the REST semantics, a list
returns the stored comments, a create appends a fresh comment with the next
id, and an update replaces the body of the comment with the given id.
`process.exit(1)` in the script's catch blocks is modelled as the
`RunOutcome.fatal` outcome. -/

/-- A pull-request comment as seen through the API: the `externalId` assigned
by GitHub and the markdown body. -/
structure Comment where
  id : Nat
  body : JStr
deriving DecidableEq

/-- The `commentData` object built by the `generate*Comment` functions:
a title, a rendered markdown body, and the report-kind identifier. -/
structure CommentData where
  title : JStr
  body : JStr
  identifier : JStr
deriving DecidableEq

/-- `options.title` as it is used inside `findExistingComment`: when the
`--title` flag is absent the option is `null`, and JavaScript
`body.includes(null)` coerces the argument to the string `"null"`. -/
def titleText (optTitle : Option JStr) : JStr :=
  optTitle.getD "null".data

/-- The predicate of `comments.find` in `findExistingComment`:
`comment.body.includes(identifier) || comment.body.includes(options.title)`. -/
def commentMatches (optTitle : Option JStr) (identifier : JStr) (c : Comment) : Bool :=
  lcContains c.body identifier || lcContains c.body (titleText optTitle)

/-- `findExistingComment`: on a successful `GET` it returns the first matching
comment; when the request throws, the catch block logs
`Failed to fetch existing comments: ...` and returns `null`.  The second
component collects the `console.error` warnings emitted. -/
def findExistingComment (listResult : Except JStr (List Comment))
    (identifier : JStr) (optTitle : Option JStr) : Option Comment × List JStr :=
  match listResult with
  | .error msg => (none, ["Failed to fetch existing comments: ".data ++ msg])
  | .ok comments => (comments.find? (commentMatches optTitle identifier), [])

/-- The remote API state plus injected failure outcomes for each request kind
(`some msg` makes that request reject with `msg`). -/
structure ApiWorld where
  comments : List Comment
  nextId : Nat
  listError : Option JStr
  createError : Option JStr
  updateError : Option JStr
deriving DecidableEq

/-- `GET /issues/:pr/comments`. -/
def listComments (w : ApiWorld) : Except JStr (List Comment) :=
  match w.listError with
  | some e => Except.error e
  | none => Except.ok w.comments

/-- `POST /issues/:pr/comments` with `{ body }`: appends a fresh comment. -/
def createComment (w : ApiWorld) (body : JStr) : Except JStr ApiWorld :=
  match w.createError with
  | some e => Except.error e
  | none =>
    Except.ok { w with comments := w.comments ++ [⟨w.nextId, body⟩],
                       nextId := w.nextId + 1 }

/-- `PATCH /issues/comments/:id` with `{ body }`: replaces that comment's body. -/
def updateComment (w : ApiWorld) (cid : Nat) (body : JStr) : Except JStr ApiWorld :=
  match w.updateError with
  | some e => Except.error e
  | none =>
    Except.ok { w with
      comments := w.comments.map fun c =>
        if c.id = cid then { c with body := body } else c }

/-- How one invocation of `postOrUpdateComment` ends: the `Created new` path,
the `Updated existing` path, or the catch block that prints
`Failed to post/update comment: ...` and calls `process.exit(1)`. -/
inductive RunOutcome where
  | created
  | updated
  | fatal (msg : JStr)
deriving DecidableEq

/-- The observable result of one `postOrUpdateComment` invocation: the remote
state afterwards, how the run ended, and the warnings logged on the way. -/
structure RunResult where
  world : ApiWorld
  outcome : RunOutcome
  warnings : List JStr
deriving DecidableEq

/-- `postOrUpdateComment` of `scripts/pr-commenter.js`: list the comments
(where a thrown error is caught inside `findExistingComment` and yields
`null`), then `PATCH` the found comment or `POST` a new one; an error thrown
by the `PATCH`/`POST` reaches the catch block, which exits with status 1. -/
def postOrUpdateComment (w : ApiWorld) (cd : CommentData)
    (optTitle : Option JStr) : RunResult :=
  let fr := findExistingComment (listComments w) cd.identifier optTitle
  match fr.1 with
  | some existing =>
    match updateComment w existing.id cd.body with
    | .ok w2 => ⟨w2, RunOutcome.updated, fr.2⟩
    | .error e => ⟨w, RunOutcome.fatal ("Failed to post/update comment: ".data ++ e), fr.2⟩
  | none =>
    match createComment w cd.body with
    | .ok w2 => ⟨w2, RunOutcome.created, fr.2⟩
    | .error e => ⟨w, RunOutcome.fatal ("Failed to post/update comment: ".data ++ e), fr.2⟩

/-- A pull request with no comments yet and a fully healthy API. -/
def emptyWorld : ApiWorld :=
  ⟨[], 0, none, none, none⟩

/-- Extracts the file of a `No coverage data found` log line. -/
def noDataFile : LogLine → Option JStr
  | LogLine.noData f => some f
  | LogLine.detail _ _ _ _ => none

/-! ## Helper lemmas -/

lemma coveredCount_le (l : List Nat) : coveredCount l ≤ l.length :=
  List.length_filter_le _ l

lemma coveredStatements_le (cov : List FileCoverage) :
    coveredStatements cov ≤ totalStatements cov := by
  induction cov with
  | nil => simp [coveredStatements, totalStatements]
  | cons f rest ih =>
    simp only [coveredStatements, totalStatements, List.map_cons, List.sum_cons] at *
    exact Nat.add_le_add (coveredCount_le f.s) ih

lemma lt_div_add_one_mul (a b : ℕ) (h : 0 < b) : a < (a / b + 1) * b := by
  nlinarith [Nat.div_add_mod a b, Nat.mod_lt a h]

lemma roundHundredths_le {c t : ℕ} (hc : c ≤ t) (ht : 0 < t) :
    roundHundredths c t ≤ 10000 := by
  have h2t : 0 < 2 * t := by omega
  have : c * 20000 + t < 10001 * (2 * t) := by nlinarith
  have := (Nat.div_lt_iff_lt_mul h2t).mpr this
  unfold roundHundredths
  omega

lemma roundHundredths_bounds {c t : ℕ} (ht : 0 < t) :
    (c : ℚ) * 10000 / t - 1 / 2 ≤ (roundHundredths c t : ℚ) ∧
    (roundHundredths c t : ℚ) ≤ (c : ℚ) * 10000 / t + 1 / 2 := by
  have h2t : 0 < 2 * t := by omega
  have htq : (0 : ℚ) < t := by exact_mod_cast ht
  have hup : roundHundredths c t * (2 * t) ≤ c * 20000 + t :=
    Nat.div_mul_le_self _ _
  have hlo : c * 20000 + t < (roundHundredths c t + 1) * (2 * t) :=
    lt_div_add_one_mul _ _ h2t
  constructor
  · have hloq : ((c : ℚ) * 20000 + t) < ((roundHundredths c t : ℚ) + 1) * (2 * t) := by
      exact_mod_cast hlo
    rw [sub_le_iff_le_add, div_le_iff htq]
    nlinarith
  · have hupq : ((roundHundredths c t : ℚ)) * (2 * t) ≤ (c : ℚ) * 20000 + t := by
      exact_mod_cast hup
    rw [← sub_le_iff_le_add, le_div_iff htq]
    nlinarith

lemma processFiles_covered_le (cov : List FileCoverage) (fsE : JStr → Bool)
    (res : JStr → JStr) (l : List JStr) :
    (processFiles cov fsE res l).coveredLines ≤ (processFiles cov fsE res l).totalLines := by
  induction l with
  | nil => simp [processFiles]
  | cons f rest ih =>
    have hf : (fileContribution cov fsE res f).coveredLines ≤
        (fileContribution cov fsE res f).totalLines := by
      unfold fileContribution
      by_cases hex : fsE f
      · simp only [hex, if_true]
        cases hfind : findCoverage cov res f with
        | none => simp
        | some fd =>
          by_cases hft : 0 < fd.s.length <;>
            simp [hft, coveredCount_le fd.s]
      · simp [hex]
    simp only [processFiles, addContrib]
    exact Nat.add_le_add hf ih

lemma le_div_hundred_iff (b : ℕ) (t : ℚ) : t ≤ (b : ℚ) / 100 ↔ t * 100 ≤ (b : ℚ) := by
  rw [le_div_iff (by norm_num : (0 : ℚ) < 100)]

/-- The `COVERAGE_CHECK_FAILED` gate on a numeric percentage, characterised in
hundredths: it fails exactly when the value is below `20.00`. -/
lemma coverageCheckFailed_val (b : ℕ) :
    coverageCheckFailed (Pct.val b) = decide (b < 2000) := by
  have key : ((20 : ℚ) ≤ (b : ℚ) / 100) ↔ (2000 ≤ b) := by
    rw [le_div_hundred_iff]
    norm_num
  simp only [coverageCheckFailed, mainThresholdMet, floatGE, parseFloatPct]
  by_cases h : 2000 ≤ b
  · simp [key, h, Nat.not_lt.mpr h]
  · simp [key, h, Nat.lt_of_not_le h]

lemma processFiles_totalLines (cov : List FileCoverage) (fsE : JStr → Bool)
    (res : JStr → JStr) (l : List JStr) :
    (processFiles cov fsE res l).totalLines =
      (((l.filter fsE).filterMap (findCoverage cov res)).map (fun d => d.s.length)).sum := by
  induction l with
  | nil => simp [processFiles]
  | cons f rest ih =>
    simp only [processFiles, addContrib]
    by_cases hex : fsE f
    · cases hfind : findCoverage cov res f with
      | none => simp [fileContribution, hex, hfind, ih]
      | some fd =>
        by_cases hft : 0 < fd.s.length <;>
          simp [fileContribution, hex, hfind, hft, ih]
    · simp [fileContribution, hex, ih]

lemma processFiles_coveredLines (cov : List FileCoverage) (fsE : JStr → Bool)
    (res : JStr → JStr) (l : List JStr) :
    (processFiles cov fsE res l).coveredLines =
      (((l.filter fsE).filterMap (findCoverage cov res)).map (fun d => coveredCount d.s)).sum := by
  induction l with
  | nil => simp [processFiles]
  | cons f rest ih =>
    simp only [processFiles, addContrib]
    by_cases hex : fsE f
    · cases hfind : findCoverage cov res f with
      | none => simp [fileContribution, hex, hfind, ih]
      | some fd =>
        by_cases hft : 0 < fd.s.length <;>
          simp [fileContribution, hex, hfind, hft, ih]
    · simp [fileContribution, hex, ih]

lemma processFiles_noData (cov : List FileCoverage) (fsE : JStr → Bool)
    (res : JStr → JStr) (l : List JStr) :
    (processFiles cov fsE res l).logs.filterMap noDataFile =
      l.filter (fun f => fsE f && (findCoverage cov res f).isNone) := by
  induction l with
  | nil => simp [processFiles]
  | cons f rest ih =>
    simp only [processFiles, addContrib]
    by_cases hex : fsE f
    · cases hfind : findCoverage cov res f with
      | none => simp [fileContribution, noDataFile, hex, hfind, ih]
      | some fd =>
        by_cases hft : 0 < fd.s.length <;>
          simp [fileContribution, noDataFile, hex, hfind, hft, ih]
    · simp [fileContribution, hex, ih]

lemma fileContribution_details (cov : List FileCoverage) (fsE : JStr → Bool)
    (res : JStr → JStr) (f : JStr) :
    ∀ fd ∈ (fileContribution cov fsE res f).fileDetails,
      fd.file = f ∧ fsE f = true ∧ ∃ d, findCoverage cov res f = some d ∧
        fd.covered = coveredCount d.s ∧ fd.total = d.s.length ∧ 0 < d.s.length ∧
        fd.percentage = roundHundredths (coveredCount d.s) d.s.length := by
  intro fd hfd
  unfold fileContribution at hfd
  by_cases hex : fsE f
  · simp only [hex, if_true] at hfd
    cases hfind : findCoverage cov res f with
    | none => rw [hfind] at hfd; simp at hfd
    | some d =>
      rw [hfind] at hfd
      by_cases hft : 0 < d.s.length
      · simp only [hft, if_true, List.mem_singleton] at hfd
        subst hfd
        exact ⟨rfl, hex, d, rfl, rfl, rfl, hft, rfl⟩
      · simp [hft] at hfd
  · simp [hex] at hfd

lemma processFiles_details (cov : List FileCoverage) (fsE : JStr → Bool)
    (res : JStr → JStr) (l : List JStr) :
    ∀ fd ∈ (processFiles cov fsE res l).fileDetails,
      fsE fd.file = true ∧ ∃ d, findCoverage cov res fd.file = some d ∧
        fd.covered = coveredCount d.s ∧ fd.total = d.s.length ∧ 0 < d.s.length ∧
        fd.percentage = roundHundredths (coveredCount d.s) d.s.length := by
  induction l with
  | nil => simp [processFiles]
  | cons f rest ih =>
    intro fd hfd
    simp only [processFiles, addContrib, List.mem_append] at hfd
    rcases hfd with h | h
    · obtain ⟨hfile, hex, d, hfind, hrest⟩ := fileContribution_details cov fsE res f fd h
      exact ⟨hfile ▸ hex, d, hfile ▸ hfind, hrest⟩
    · exact ih fd h

/-! ## Claims -/

/-- Claim C1, counterexample: with an empty changed-file set the aggregation
does return the `'N/A'` sentinel, but `main` (line 210) computes
`thresholdMet = false` for `'N/A'` and prints `COVERAGE_CHECK_FAILED=true`,
so the coverage check IS marked failed — refuting the claim that the gate
decision is pass. -/
theorem c1_counterexample :
    (calculateChangedFilesCoverage [] (fun _ => false) (fun s => s)
      ".ts,.tsx,.js,.jsx".data "src/".data []).percentage = Pct.na ∧
    coverageCheckFailed
      (calculateChangedFilesCoverage [] (fun _ => false) (fun s => s)
        ".ts,.tsx,.js,.jsx".data "src/".data []).percentage = true := by
  decide

/-- Claim C1 (amended): for every coverage map and every threshold, when the
changed-file set is empty the changed-files-only aggregation returns the
sentinel `'N/A'` without inspecting the coverage map (the result does not
depend on the coverage map, the file system, or the resolver), but the gate
decision is fail: `main` treats `'N/A'` as not meeting the threshold and
emits `COVERAGE_CHECK_FAILED=true`. -/
theorem c1_empty_changed_set (cov cov' : List FileCoverage)
    (fsE fsE' : JStr → Bool) (res res' : JStr → JStr) (pat src : JStr) :
    calculateChangedFilesCoverage cov fsE res pat src [] =
      calculateChangedFilesCoverage cov' fsE' res' pat src [] ∧
    (calculateChangedFilesCoverage cov fsE res pat src []).percentage = Pct.na ∧
    coverageCheckFailed
      (calculateChangedFilesCoverage cov fsE res pat src []).percentage = true :=
  ⟨rfl, rfl, rfl⟩

/-- Claim C3, counterexample: on a coverage map with zero total units (here
the empty map) `calculateGlobalCoverage` returns the string `'0.00'`, not the
`'N/A'` sentinel the claim requires. -/
theorem c3_counterexample :
    totalStatements [] = 0 ∧ calculateGlobalCoverage [] = Pct.val 0 ∧
    Pct.val 0 ≠ Pct.na := by
  decide

/-- Claim C3 (amended): the global aggregation percentage equals
coveredUnits / totalUnits × 100 rounded half-up to 2 decimal places (within
half a hundredth of the exact ratio) and lies in [0,100]; when totalUnits is
0 the percentage is the string `'0.00'` (division by zero never occurs).
The same zero-total rule, with the same formula, applies to the
changed-files-only percentage over a nonempty changed-file set. -/
theorem c3_percentage_formula (cov : List FileCoverage) (fsE : JStr → Bool)
    (res : JStr → JStr) (pat src : JStr) (changed : List JStr)
    (hne : changed ≠ []) :
    (totalStatements cov = 0 → calculateGlobalCoverage cov = Pct.val 0) ∧
    (0 < totalStatements cov →
      calculateGlobalCoverage cov =
        Pct.val (roundHundredths (coveredStatements cov) (totalStatements cov)) ∧
      roundHundredths (coveredStatements cov) (totalStatements cov) ≤ 10000 ∧
      (coveredStatements cov : ℚ) * 10000 / totalStatements cov - 1 / 2 ≤
        (roundHundredths (coveredStatements cov) (totalStatements cov) : ℚ) ∧
      (roundHundredths (coveredStatements cov) (totalStatements cov) : ℚ) ≤
        (coveredStatements cov : ℚ) * 10000 / totalStatements cov + 1 / 2) ∧
    ((processFiles cov fsE res changed).totalLines = 0 →
      (calculateChangedFilesCoverage cov fsE res pat src changed).percentage = Pct.val 0) ∧
    (0 < (processFiles cov fsE res changed).totalLines →
      (calculateChangedFilesCoverage cov fsE res pat src changed).percentage =
        Pct.val (roundHundredths (processFiles cov fsE res changed).coveredLines
          (processFiles cov fsE res changed).totalLines) ∧
      roundHundredths (processFiles cov fsE res changed).coveredLines
        (processFiles cov fsE res changed).totalLines ≤ 10000) := by
  refine ⟨?_, ?_, ?_, ?_⟩
  · intro h
    simp [calculateGlobalCoverage, h]
  · intro h
    exact ⟨by simp [calculateGlobalCoverage, h],
      roundHundredths_le (coveredStatements_le cov) h,
      (roundHundredths_bounds h).1, (roundHundredths_bounds h).2⟩
  · intro h
    simp [calculateChangedFilesCoverage, hne, h]
  · intro h
    exact ⟨by simp [calculateChangedFilesCoverage, hne, h],
      roundHundredths_le (processFiles_covered_le cov fsE res changed) h⟩

/-- Witness for C3 (amended) at a concrete coverage map with 2 of 3
statements covered: the global percentage is the string `66.67`. -/
theorem c3_percentage_formula_witness :
    calculateGlobalCoverage [⟨"/a".data, [1, 0, 2]⟩] = Pct.val 6667 ∧
    roundHundredths 2 3 ≤ 10000 := by
  have h := (c3_percentage_formula [⟨"/a".data, [1, 0, 2]⟩] (fun _ => true)
      (fun s => s) [] [] ["x".data] (by decide)).2.1 (by decide)
  exact ⟨h.1.trans (by decide), by decide⟩

/-- Claim C5: for every numeric percentage (in hundredths `b`, the value of
the two-decimal string) and every threshold, the report gate of
`generateMarkdownReport` passes iff `b / 100 ≥ threshold`; equality passes
(inclusive boundary); and the hard-coded threshold-20 gate of `main` does not
mark the check failed iff `b ≥ 2000` hundredths, i.e. percentage ≥ 20. -/
theorem c5_threshold_inclusive (b : ℕ) (threshold : ℚ) :
    (reportThresholdMet (Pct.val b) threshold = true ↔ threshold ≤ (b : ℚ) / 100) ∧
    reportThresholdMet (Pct.val b) ((b : ℚ) / 100) = true ∧
    (coverageCheckFailed (Pct.val b) = false ↔ 2000 ≤ b) := by
  refine ⟨?_, ?_, ?_⟩
  · simp [reportThresholdMet, floatGE, parseFloatPct]
  · simp [reportThresholdMet, floatGE, parseFloatPct]
  · rw [coverageCheckFailed_val]
    simp only [decide_eq_false_iff_not, Nat.not_lt]

/-- Claim C2, counterexample: upserting bodies that do not contain the
identifier (with no `--title` flag, so the fallback searches for the literal
string `null`): the second invocation does not find the first comment and
POSTs again, leaving two comments — refuting idempotency for arbitrary
bodies. -/
theorem c2_counterexample :
    (postOrUpdateComment emptyWorld
      ⟨"T".data, "hello".data, "test-coverage".data⟩ none).outcome =
      RunOutcome.created ∧
    (postOrUpdateComment
        (postOrUpdateComment emptyWorld
          ⟨"T".data, "hello".data, "test-coverage".data⟩ none).world
        ⟨"T".data, "world".data, "test-coverage".data⟩ none).outcome =
      RunOutcome.created ∧
    (postOrUpdateComment
        (postOrUpdateComment emptyWorld
          ⟨"T".data, "hello".data, "test-coverage".data⟩ none).world
        ⟨"T".data, "world".data, "test-coverage".data⟩ none).world.comments.length = 2 := by
  decide

/-- Claim C2 (amended): provided the first body contains the identifier (the
marker by which `findExistingComment` recognises the comment), invoking
`upsert(id, bodyA)` then `upsert(id, bodyB)` against an initially
comment-free pull request leaves exactly one comment whose final body is
`bodyB`, and the second invocation issues an update (PATCH), not a create. -/
theorem c2_upsert_idempotent (id bodyA bodyB tA tB : JStr) (optTitle : Option JStr)
    (h : lcContains bodyA id = true) :
    (postOrUpdateComment emptyWorld ⟨tA, bodyA, id⟩ optTitle).outcome =
      RunOutcome.created ∧
    (postOrUpdateComment
        (postOrUpdateComment emptyWorld ⟨tA, bodyA, id⟩ optTitle).world
        ⟨tB, bodyB, id⟩ optTitle).outcome = RunOutcome.updated ∧
    (postOrUpdateComment
        (postOrUpdateComment emptyWorld ⟨tA, bodyA, id⟩ optTitle).world
        ⟨tB, bodyB, id⟩ optTitle).world.comments = [⟨0, bodyB⟩] := by
  have h1 : postOrUpdateComment emptyWorld ⟨tA, bodyA, id⟩ optTitle =
      ⟨⟨[⟨0, bodyA⟩], 1, none, none, none⟩, RunOutcome.created, []⟩ := rfl
  have h2 : commentMatches optTitle id ⟨0, bodyA⟩ = true := by
    simp [commentMatches, h]
  refine ⟨by rw [h1], ?_, ?_⟩ <;>
  · rw [h1]
    simp [postOrUpdateComment, findExistingComment, listComments, updateComment,
      List.find?_cons, h2]

/-- Witness for C2 (amended): a first body that does contain the marker;
after the second upsert exactly the one comment with the second body is
left. -/
theorem c2_upsert_idempotent_witness :
    lcContains "marker test-coverage here".data "test-coverage".data = true ∧
    (postOrUpdateComment
        (postOrUpdateComment emptyWorld
          ⟨"T".data, "marker test-coverage here".data, "test-coverage".data⟩ none).world
        ⟨"T".data, "done".data, "test-coverage".data⟩ none).world.comments =
      [⟨0, "done".data⟩] :=
  ⟨by decide,
    (c2_upsert_idempotent "test-coverage".data "marker test-coverage here".data
      "done".data "T".data "T".data none (by decide)).2.2⟩

/-- A pull request holding an earlier report comment, where the list-comments
request rejects with an authentication error. -/
def authFailWorld : ApiWorld :=
  ⟨[⟨1, "old report".data⟩], 2, some "401 Unauthorized".data, none, none⟩

/-- Claim C4, counterexample: an authentication failure on the list-comments
request is caught inside `findExistingComment`, logged as a warning, and
treated as "no existing comment": the run then POSTs a second comment and
ends on the created path instead of aborting with a fatal error — an API
failure that is not surfaced as fatal. -/
theorem c4_counterexample :
    (postOrUpdateComment authFailWorld ⟨"T".data, "B".data, "id1".data⟩ none).outcome =
      RunOutcome.created ∧
    (postOrUpdateComment authFailWorld ⟨"T".data, "B".data, "id1".data⟩ none).warnings =
      ["Failed to fetch existing comments: 401 Unauthorized".data] ∧
    (postOrUpdateComment authFailWorld
      ⟨"T".data, "B".data, "id1".data⟩ none).world.comments.length = 2 := by
  decide

/-- Claim C4 (amended): failures of the create (POST) and update (PATCH)
requests are surfaced as fatal errors that abort the run with a non-zero
exit status and no retry; a failure of the list-comments (GET) request,
however, is caught, logged as a warning, and treated as "no existing
comment", after which the run proceeds to create a comment — it is degraded,
not fatal. -/
theorem c4_api_failures (w : ApiWorld) (cd : CommentData) (t : Option JStr) :
    (∀ e, w.listError = some e →
      (postOrUpdateComment w cd t).warnings =
        ["Failed to fetch existing comments: ".data ++ e] ∧
      (w.createError = none →
        (postOrUpdateComment w cd t).outcome = RunOutcome.created ∧
        (postOrUpdateComment w cd t).world.comments =
          w.comments ++ [⟨w.nextId, cd.body⟩]) ∧
      (∀ e2, w.createError = some e2 →
        (postOrUpdateComment w cd t).outcome =
          RunOutcome.fatal ("Failed to post/update comment: ".data ++ e2))) ∧
    (w.listError = none →
      (∀ e, w.comments.find? (commentMatches t cd.identifier) = none →
        w.createError = some e →
        (postOrUpdateComment w cd t).outcome =
          RunOutcome.fatal ("Failed to post/update comment: ".data ++ e)) ∧
      (∀ e c, w.comments.find? (commentMatches t cd.identifier) = some c →
        w.updateError = some e →
        (postOrUpdateComment w cd t).outcome =
          RunOutcome.fatal ("Failed to post/update comment: ".data ++ e))) := by
  constructor
  · intro e he
    refine ⟨?_, ?_, ?_⟩
    · rcases hc : w.createError with _ | e2 <;>
        simp [postOrUpdateComment, findExistingComment, listComments, createComment, he, hc]
    · intro hc
      simp [postOrUpdateComment, findExistingComment, listComments, createComment, he, hc]
    · intro e2 hc
      simp [postOrUpdateComment, findExistingComment, listComments, createComment, he, hc]
  · intro hl
    constructor
    · intro e hfind hc
      simp [postOrUpdateComment, findExistingComment, listComments, createComment,
        hl, hfind, hc]
    · intro e c hfind hc
      simp [postOrUpdateComment, findExistingComment, listComments, updateComment,
        hl, hfind, hc]

/-- A healthy list request but a rejecting create request. -/
def failCreateWorld : ApiWorld :=
  ⟨[], 0, none, some "boom".data, none⟩

/-- Witness for C4 (amended): a create failure ends the run on the fatal
(exit 1) path. -/
theorem c4_api_failures_witness :
    (postOrUpdateComment failCreateWorld ⟨"T".data, "B".data, "id1".data⟩ none).outcome =
      RunOutcome.fatal "Failed to post/update comment: boom".data :=
  ((c4_api_failures failCreateWorld ⟨"T".data, "B".data, "id1".data⟩ none).2 rfl).1
    "boom".data rfl rfl

/-- A pull request whose only comment is unrelated small talk that happens to
contain the word `null`. -/
def nullTrapWorld : ApiWorld :=
  ⟨[⟨7, "beware of null pointers".data⟩], 8, none, none, none⟩

/-- Claim C10: the existing-comment search matches a comment when its body
contains the identifier marker OR the caller-supplied `--title` string; with
no `--title` flag the null title is coerced to the string `null`, so for some
comment lists an unrelated comment containing that text is selected and its
body overwritten — here a comment mentioning `null pointers` is overwritten
by the `test-coverage` upsert. -/
theorem c10_title_fallback (comments : List Comment) (id : JStr)
    (t : Option JStr) (c : Comment)
    (h : (findExistingComment (Except.ok comments) id t).1 = some c) :
    (lcContains c.body id = true ∨ lcContains c.body (titleText t) = true) ∧
    titleText none = "null".data ∧
    (postOrUpdateComment nullTrapWorld
      ⟨"T".data, "NEW".data, "test-coverage".data⟩ none).outcome =
      RunOutcome.updated ∧
    (postOrUpdateComment nullTrapWorld
      ⟨"T".data, "NEW".data, "test-coverage".data⟩ none).world.comments =
      [⟨7, "NEW".data⟩] := by
  refine ⟨?_, rfl, by decide, by decide⟩
  have hm := List.find?_some (p := commentMatches t id) (l := comments)
    (by simpa [findExistingComment] using h)
  simpa [commentMatches] using hm

/-- Witness for C10 at the concrete trap scenario. -/
theorem c10_title_fallback_witness :
    (lcContains "beware of null pointers".data "test-coverage".data = true ∨
      lcContains "beware of null pointers".data (titleText none) = true) ∧
    titleText none = "null".data ∧
    (postOrUpdateComment nullTrapWorld
      ⟨"T".data, "NEW".data, "test-coverage".data⟩ none).outcome =
      RunOutcome.updated ∧
    (postOrUpdateComment nullTrapWorld
      ⟨"T".data, "NEW".data, "test-coverage".data⟩ none).world.comments =
      [⟨7, "NEW".data⟩] :=
  c10_title_fallback nullTrapWorld.comments "test-coverage".data none
    ⟨7, "beware of null pointers".data⟩ (by decide)

/-- Claim C6: for a changed file present on the filesystem, a coverage-map
entry is located by exact absolute-path match or, as a fallback, by
path-suffix match; when some entry's key has the changed path as a strict
(non-identical) suffix, the lookup finds an entry, and the matched entry's
covered/total counts are the ones included in the aggregate. -/
theorem c6_suffix_match (cov : List FileCoverage) (fsE : JStr → Bool)
    (res : JStr → JStr) (pat src file : JStr)
    (hex : fsE file = true)
    (hsuf : ∃ d ∈ cov, lcEndsWith d.path file = true ∧ d.path ≠ file) :
    ∃ d, findCoverage cov res file = some d ∧ d ∈ cov ∧
      (d.path = res file ∨ lcEndsWith d.path file = true) ∧
      (calculateChangedFilesCoverage cov fsE res pat src [file]).totalLines =
        d.s.length ∧
      (calculateChangedFilesCoverage cov fsE res pat src [file]).coveredLines =
        coveredCount d.s := by
  obtain ⟨d0, hd0, hsuf0, _⟩ := hsuf
  have hsome : (cov.find?
      (fun d => decide (d.path = res file) || lcEndsWith d.path file)).isSome := by
    rw [List.find?_isSome]
    exact ⟨d0, hd0, by simp [hsuf0]⟩
  obtain ⟨d, hd⟩ := Option.isSome_iff_exists.mp hsome
  have hfind : findCoverage cov res file = some d := hd
  have hp := List.find?_some hd
  refine ⟨d, hfind, List.mem_of_find?_eq_some hd, by simpa using hp, ?_, ?_⟩ <;>
  · simp only [calculateChangedFilesCoverage, processFiles, addContrib,
      fileContribution, hex, hfind]
    by_cases hft : 0 < d.s.length <;> simp [hft]

/-- Witness for C6: the changed path `src/a.ts` is a strict suffix of the
coverage key `/home/p/src/a.ts`; the entry is matched and its 1/2 counts make
up the aggregate. -/
theorem c6_suffix_match_witness :
    ∃ d, findCoverage [⟨"/home/p/src/a.ts".data, [1, 0]⟩] (fun s => s)
        "src/a.ts".data = some d ∧
      d ∈ [⟨"/home/p/src/a.ts".data, [1, 0]⟩] ∧
      (d.path = "src/a.ts".data ∨ lcEndsWith d.path "src/a.ts".data = true) ∧
      (calculateChangedFilesCoverage [⟨"/home/p/src/a.ts".data, [1, 0]⟩]
        (fun _ => true) (fun s => s) [] [] ["src/a.ts".data]).totalLines =
        d.s.length ∧
      (calculateChangedFilesCoverage [⟨"/home/p/src/a.ts".data, [1, 0]⟩]
        (fun _ => true) (fun s => s) [] [] ["src/a.ts".data]).coveredLines =
        coveredCount d.s :=
  c6_suffix_match [⟨"/home/p/src/a.ts".data, [1, 0]⟩] (fun _ => true)
    (fun s => s) [] [] "src/a.ts".data (by decide)
    ⟨⟨"/home/p/src/a.ts".data, [1, 0]⟩, by decide, by decide, by decide⟩

/-- Claim C7: in changed-files-only aggregation over a nonempty changed set,
the totals sum exactly the matched entries' counts — a changed file without a
matching coverage-map entry contributes to neither numerator nor denominator
(it does not count as 0%) — every existing file without a match is reported,
once and in order, as "no coverage data", and per-file detail entries are
emitted only for files with a matching coverage-map entry. -/
theorem c7_no_match_excluded (cov : List FileCoverage) (fsE : JStr → Bool)
    (res : JStr → JStr) (pat src : JStr) (changed : List JStr)
    (hne : changed ≠ []) :
    (calculateChangedFilesCoverage cov fsE res pat src changed).totalLines =
      (((changed.filter fsE).filterMap (findCoverage cov res)).map
        (fun d => d.s.length)).sum ∧
    (calculateChangedFilesCoverage cov fsE res pat src changed).coveredLines =
      (((changed.filter fsE).filterMap (findCoverage cov res)).map
        (fun d => coveredCount d.s)).sum ∧
    (calculateChangedFilesCoverage cov fsE res pat src changed).logs.filterMap
        noDataFile =
      changed.filter (fun f => fsE f && (findCoverage cov res f).isNone) ∧
    ∀ fd ∈ (calculateChangedFilesCoverage cov fsE res pat src changed).files,
      fsE fd.file = true ∧ ∃ d, findCoverage cov res fd.file = some d ∧
        fd.covered = coveredCount d.s ∧ fd.total = d.s.length := by
  refine ⟨?_, ?_, ?_, ?_⟩
  · simp [calculateChangedFilesCoverage, hne, processFiles_totalLines]
  · simp [calculateChangedFilesCoverage, hne, processFiles_coveredLines]
  · simp [calculateChangedFilesCoverage, hne, processFiles_noData]
  · intro fd hfd
    have hmem : fd ∈ (processFiles cov fsE res changed).fileDetails := by
      simpa [calculateChangedFilesCoverage, hne] using hfd
    have h := processFiles_details cov fsE res changed fd hmem
    exact ⟨h.1, h.2.imp fun d hd => ⟨hd.1, hd.2.1, hd.2.2.1⟩⟩

/-- Witness for C7: `src/a.ts` matches `/p/src/a.ts` (1 of 2 covered);
`src/b.ts` has no entry, is excluded from the totals, and is reported as
having no coverage data. -/
theorem c7_no_match_excluded_witness :
    (calculateChangedFilesCoverage [⟨"/p/src/a.ts".data, [1, 0]⟩]
      (fun _ => true) (fun s => s) [] []
      ["src/a.ts".data, "src/b.ts".data]).totalLines = 2 ∧
    (calculateChangedFilesCoverage [⟨"/p/src/a.ts".data, [1, 0]⟩]
      (fun _ => true) (fun s => s) [] []
      ["src/a.ts".data, "src/b.ts".data]).coveredLines = 1 ∧
    (calculateChangedFilesCoverage [⟨"/p/src/a.ts".data, [1, 0]⟩]
      (fun _ => true) (fun s => s) [] []
      ["src/a.ts".data, "src/b.ts".data]).logs.filterMap noDataFile =
      ["src/b.ts".data] :=
  ⟨((c7_no_match_excluded [⟨"/p/src/a.ts".data, [1, 0]⟩] (fun _ => true)
      (fun s => s) [] [] ["src/a.ts".data, "src/b.ts".data]
      (by decide)).1).trans (by decide),
   ((c7_no_match_excluded [⟨"/p/src/a.ts".data, [1, 0]⟩] (fun _ => true)
      (fun s => s) [] [] ["src/a.ts".data, "src/b.ts".data]
      (by decide)).2.1).trans (by decide),
   ((c7_no_match_excluded [⟨"/p/src/a.ts".data, [1, 0]⟩] (fun _ => true)
      (fun s => s) [] [] ["src/a.ts".data, "src/b.ts".data]
      (by decide)).2.2.1).trans (by decide)⟩

/-- Claim C8: when the external diff step fails, the changed-file resolver
catches the error, surfaces a warning, and returns an empty changed-file set
rather than raising a fatal error, and the pipeline still produces a report
(the `'N/A'` aggregation result) from that empty set. -/
theorem c8_diff_failure_degrades (msg : JStr) (cov : List FileCoverage)
    (fsE : JStr → Bool) (res : JStr → JStr) (pat src : JStr) :
    (getChangedFiles (Except.error msg)).1 = [] ∧
    (getChangedFiles (Except.error msg)).2 =
      ["Failed to get changed files: ".data ++ msg] ∧
    (calculateChangedFilesCoverage cov fsE res pat src
      (getChangedFiles (Except.error msg)).1).percentage = Pct.na :=
  ⟨rfl, rfl, rfl⟩

/-- Claim C9: a changed file path that does not exist on the filesystem is
skipped entirely: its loop contribution is empty — nothing added to the
numerator or denominator, no per-file detail entry, and no log line (in
particular it is not reported as "no coverage data") — and the whole
aggregation result over a changed set containing it equals the result
without it. -/
theorem c9_missing_file_skipped (cov : List FileCoverage) (fsE : JStr → Bool)
    (res : JStr → JStr) (pat src f : JStr) (rest : List JStr)
    (hex : fsE f = false) (hrest : rest ≠ []) :
    fileContribution cov fsE res f = ⟨0, 0, [], []⟩ ∧
    processFiles cov fsE res (f :: rest) = processFiles cov fsE res rest ∧
    calculateChangedFilesCoverage cov fsE res pat src (f :: rest) =
      calculateChangedFilesCoverage cov fsE res pat src rest := by
  have h1 : fileContribution cov fsE res f = ⟨0, 0, [], []⟩ := by
    simp [fileContribution, hex]
  have h2 : processFiles cov fsE res (f :: rest) = processFiles cov fsE res rest := by
    rcases hpf : processFiles cov fsE res rest with ⟨a, b, c, d⟩
    simp [processFiles, h1, addContrib, hpf]
  refine ⟨h1, h2, ?_⟩
  simp [calculateChangedFilesCoverage, hrest, h2]

/-- Witness for C9: `gone.ts` does not exist; its contribution is empty and
the result over `[gone.ts, a.ts]` equals the result over `[a.ts]`. -/
theorem c9_missing_file_skipped_witness :
    fileContribution [] (fun s => decide (s ≠ "gone.ts".data)) (fun s => s)
      "gone.ts".data = ⟨0, 0, [], []⟩ ∧
    processFiles [] (fun s => decide (s ≠ "gone.ts".data)) (fun s => s)
      ["gone.ts".data, "a.ts".data] =
      processFiles [] (fun s => decide (s ≠ "gone.ts".data)) (fun s => s)
        ["a.ts".data] ∧
    calculateChangedFilesCoverage [] (fun s => decide (s ≠ "gone.ts".data))
      (fun s => s) [] [] ["gone.ts".data, "a.ts".data] =
      calculateChangedFilesCoverage [] (fun s => decide (s ≠ "gone.ts".data))
        (fun s => s) [] [] ["a.ts".data] :=
  c9_missing_file_skipped [] (fun s => decide (s ≠ "gone.ts".data)) (fun s => s)
    [] [] "gone.ts".data ["a.ts".data] (by decide) (by decide)

end BuukWorkflows
